import Mathlib

/-!
Verification of the SpatialSeed spatial-style-resolution and keyframe
scene-assembly core (`src/seed_matrix.py`, `src/spf.py`, `src/placement.py`,
`src/gesture_engine.py`, `src/lusid_writer.py`) against its natural-language
specification.

Modelling conventions (shallow embedding):
* Python floats are modelled as exact rationals (`ℚ`); `round(x, n)` is
  modelled by `pyRound n`, exact round-half-to-even at `n` decimal digits.
* Trigonometric functions are uninterpreted oscillator parameters
  (`sinD`, `cosD` take degrees; `oscS`, `oscC` take turns, i.e. the code's
  `2π·(t/period) + phase` argument divided by `2π`).  No property of them is
  assumed; all proved invariants hold for every instantiation.
* Python's process-salted builtin `hash` is an explicit parameter
  `hashFn : String → ℤ`; two runs of the program correspond to two choices
  of `hashFn`.
* `np.random.RandomState` draws in the reactive generator are an explicit
  oracle `draws : ℕ → ℚ` and an explicit burst-time list, since the seed is
  itself derived from the process-salted hash.
* Python dicts keep insertion order; they are modelled as ordered
  association lists.
-/

/-- Round-half-to-even on rationals (the rounding mode of Python `round`):
nearest integer, ties to the even one. -/
def roundHalfEven (q : ℚ) : ℤ :=
  if q - (⌊q⌋ : ℚ) < 1/2 then ⌊q⌋
  else if q - (⌊q⌋ : ℚ) > 1/2 then ⌊q⌋ + 1
  else if Even ⌊q⌋ then ⌊q⌋ else ⌊q⌋ + 1

/-- Model of Python `round(q, p)`: round-half-to-even at `p` decimal digits. -/
def pyRound (p : ℕ) (q : ℚ) : ℚ :=
  (roundHalfEven (q * (10 : ℚ) ^ p) : ℚ) / (10 : ℚ) ^ p

/-- Model of `np.clip(x, lo, hi)` (for `lo ≤ hi`). -/
def npClip (x lo hi : ℚ) : ℚ := max lo (min hi x)

/-- Clamp one coordinate to `[-1, 1]` (`max(-1.0, min(1.0, ·))` from
`spf.clamp_to_cube`). -/
def clampUnit (q : ℚ) : ℚ := max (-1) (min 1 q)

/-- Embedding of `spf.clamp_to_cube`. -/
def clampToCube (x y z : ℚ) : ℚ × ℚ × ℚ :=
  (clampUnit x, clampUnit y, clampUnit z)

/-- Embedding of `SeedMatrix.map_uv_to_z` (`seed_matrix.py` lines 60-85):
clamp `u, v` to `[0,1]`, then the eight fixed closed-form components.
The `float32` store is modelled as exact rational arithmetic. -/
def mapUVtoZ (u v : ℚ) : List ℚ :=
  let uc := npClip u 0 1
  let vc := npClip v 0 1
  [ 3/10 + 7/10 * uc      -- z[0] placement spread
  , 2/10 + 8/10 * uc      -- z[1] height usage
  , vc                    -- z[2] motion intensity
  , uc * vc               -- z[3] motion complexity
  , 1 - uc * (5/10)       -- z[4] symmetry bias
  , 5/10 + uc * (3/10)    -- z[5] front-back bias
  , uc                    -- z[6] ensemble cohesion
  , vc * (8/10) ]         -- z[7] modulation sensitivity

-- ======================================================================
-- Basic lemmas about the numeric helpers
-- ======================================================================

theorem npClip_mem (x lo hi : ℚ) (h : lo ≤ hi) :
    lo ≤ npClip x lo hi ∧ npClip x lo hi ≤ hi := by
  unfold npClip
  constructor
  · exact le_max_left _ _
  · exact max_le h (min_le_left _ _)

theorem clampUnit_mem (q : ℚ) : -1 ≤ clampUnit q ∧ clampUnit q ≤ 1 := by
  unfold clampUnit
  constructor
  · exact le_max_left _ _
  · exact max_le (by norm_num) (min_le_left _ _)

theorem roundHalfEven_ge (q : ℚ) : (q : ℚ) - 1/2 ≤ (roundHalfEven q : ℚ) := by
  unfold roundHalfEven
  have hf : (⌊q⌋ : ℚ) ≤ q := Int.floor_le q
  have hf2 : q < (⌊q⌋ : ℚ) + 1 := Int.lt_floor_add_one q
  split
  · linarith
  · split
    · push_cast; linarith
    · split
      · linarith
      · push_cast; linarith

theorem roundHalfEven_le (q : ℚ) : (roundHalfEven q : ℚ) ≤ q + 1/2 := by
  unfold roundHalfEven
  have hf : (⌊q⌋ : ℚ) ≤ q := Int.floor_le q
  have hf2 : q < (⌊q⌋ : ℚ) + 1 := Int.lt_floor_add_one q
  split
  · linarith
  · split
    · next h h2 =>
      push_cast
      linarith [h2]
    · next h h2 =>
      have hr : q - (⌊q⌋ : ℚ) = 1/2 := le_antisymm (not_lt.mp h2) (not_lt.mp h)
      split
      · linarith
      · push_cast; linarith

/-- If `q ≤ m` for an integer bound `m`, rounding cannot overshoot `m`. -/
theorem roundHalfEven_le_int (q : ℚ) (m : ℤ) (h : q ≤ (m : ℚ)) :
    roundHalfEven q ≤ m := by
  unfold roundHalfEven
  have hf : ⌊q⌋ ≤ m := by
    have := Int.floor_le_floor h
    simpa using this
  have hfq : (⌊q⌋ : ℚ) ≤ q := Int.floor_le q
  split
  · exact hf
  · next hlt =>
    have hr : (0:ℚ) < q - (⌊q⌋ : ℚ) := by
      by_contra hc
      push_neg at hc
      exact hlt (by linarith)
    have hstrict : ⌊q⌋ < m := by
      rcases lt_or_eq_of_le hf with h1 | h1
      · exact h1
      · exfalso
        have : (⌊q⌋ : ℚ) = (m : ℚ) := by exact_mod_cast h1
        linarith
    split
    · omega
    · split
      · exact hf
      · omega

/-- If `m ≤ q` for an integer bound `m`, rounding cannot undershoot `m`. -/
theorem roundHalfEven_ge_int (q : ℚ) (m : ℤ) (h : (m : ℚ) ≤ q) :
    m ≤ roundHalfEven q := by
  unfold roundHalfEven
  have hf : m ≤ ⌊q⌋ := Int.le_floor.mpr h
  split
  · exact hf
  · split
    · omega
    · split
      · exact hf
      · omega

theorem pyRound_ge (p : ℕ) (q : ℚ) : q - 1 / (2 * (10:ℚ)^p) ≤ pyRound p q := by
  unfold pyRound
  have hpow : (0:ℚ) < (10:ℚ)^p := by positivity
  rw [le_div_iff₀ hpow]
  have h := roundHalfEven_ge (q * (10:ℚ)^p)
  have hgoal : (q - 1 / (2 * (10:ℚ)^p)) * (10:ℚ)^p = q * (10:ℚ)^p - 1/2 := by
    field_simp
    ring
  rw [hgoal]
  exact h

theorem pyRound_le (p : ℕ) (q : ℚ) : pyRound p q ≤ q + 1 / (2 * (10:ℚ)^p) := by
  unfold pyRound
  have hpow : (0:ℚ) < (10:ℚ)^p := by positivity
  rw [div_le_iff₀ hpow]
  have h := roundHalfEven_le (q * (10:ℚ)^p)
  have hgoal : (q + 1 / (2 * (10:ℚ)^p)) * (10:ℚ)^p = q * (10:ℚ)^p + 1/2 := by
    field_simp
    ring
  rw [hgoal]
  exact h

/-- `pyRound` preserves an interval with integer endpoints. -/
theorem pyRound_mem_int (p : ℕ) (q : ℚ) (a b : ℤ)
    (ha : (a : ℚ) ≤ q) (hb : q ≤ (b : ℚ)) :
    (a : ℚ) ≤ pyRound p q ∧ pyRound p q ≤ (b : ℚ) := by
  unfold pyRound
  have hpow : (0:ℚ) < (10:ℚ)^p := by positivity
  constructor
  · rw [le_div_iff₀ hpow]
    have h1 : ((a * 10 ^ p : ℤ) : ℚ) ≤ q * (10:ℚ)^p := by
      push_cast
      exact mul_le_mul_of_nonneg_right ha (le_of_lt hpow)
    have h2 := roundHalfEven_ge_int (q * (10:ℚ)^p) (a * 10 ^ p) h1
    calc (a:ℚ) * (10:ℚ)^p = ((a * 10 ^ p : ℤ) : ℚ) := by push_cast; ring
    _ ≤ (roundHalfEven (q * (10:ℚ)^p) : ℚ) := by exact_mod_cast h2
  · rw [div_le_iff₀ hpow]
    have h1 : q * (10:ℚ)^p ≤ ((b * 10 ^ p : ℤ) : ℚ) := by
      push_cast
      exact mul_le_mul_of_nonneg_right hb (le_of_lt hpow)
    have h2 := roundHalfEven_le_int (q * (10:ℚ)^p) (b * 10 ^ p) h1
    calc (roundHalfEven (q * (10:ℚ)^p) : ℚ) ≤ ((b * 10 ^ p : ℤ) : ℚ) := by exact_mod_cast h2
    _ = (b:ℚ) * (10:ℚ)^p := by push_cast; ring

theorem pyRound_zero (p : ℕ) : pyRound p 0 = 0 := by
  unfold pyRound roundHalfEven
  norm_num

-- ======================================================================
-- C10: style-vector mapping invariants
-- ======================================================================

/-- C10: for all rational inputs `u`, `v` (clamped to `[0,1]` first), the
style-vector mapping returns exactly 8 components, every component lies in
`[0, 1]`, component 0 lies in `[0.3, 1]`, component 4 in `[0.5, 1]`, and
component 5 in `[0.5, 0.8]`. -/
theorem c10_style_vector_bounds (u v : ℚ) :
    (mapUVtoZ u v).length = 8 ∧
    (∀ c ∈ mapUVtoZ u v, 0 ≤ c ∧ c ≤ 1) ∧
    (3/10 ≤ (mapUVtoZ u v).getD 0 0 ∧ (mapUVtoZ u v).getD 0 0 ≤ 1) ∧
    (1/2 ≤ (mapUVtoZ u v).getD 4 0 ∧ (mapUVtoZ u v).getD 4 0 ≤ 1) ∧
    (1/2 ≤ (mapUVtoZ u v).getD 5 0 ∧ (mapUVtoZ u v).getD 5 0 ≤ 8/10) := by
  obtain ⟨hu0, hu1⟩ := npClip_mem u 0 1 (by norm_num)
  obtain ⟨hv0, hv1⟩ := npClip_mem v 0 1 (by norm_num)
  unfold mapUVtoZ
  refine ⟨rfl, ?_, ?_, ?_, ?_⟩
  · intro c hc
    simp only [List.mem_cons, List.not_mem_nil, or_false] at hc
    rcases hc with h | h | h | h | h | h | h | h <;> subst h <;>
      constructor <;> nlinarith
  · constructor <;> simp <;> linarith
  · constructor <;> simp <;> linarith
  · constructor <;> simp <;> linarith

-- ======================================================================
-- SPF: instrument profiles and the resolver (src/spf.py)
-- ======================================================================

/-- Embedding of the `InstrumentProfile` dataclass (`spf.py` lines 25-53). -/
structure InstrumentProfile where
  category : String
  role : String
  base_azimuth_deg : ℚ
  azimuth_spread_deg : ℚ
  base_elevation_deg : ℚ
  elevation_range_deg : ℚ
  base_distance : ℚ
  default_spread : ℚ
  motion_archetype : String
  energy_sensitivity : ℚ
  flux_sensitivity : ℚ
  brightness_sensitivity : ℚ
deriving DecidableEq, Repr

/-- The curated default profile table of `SPFResolver._init_default_profiles`
(`spf.py` lines 143-294), as an ordered association list in Python dict
insertion order. -/
def defaultProfiles : List ((String × String) × InstrumentProfile) :=
  [ (("vocals", "lead"),
     { category := "vocals", role := "lead"
     , base_azimuth_deg := 0, azimuth_spread_deg := 15
     , base_elevation_deg := 5, elevation_range_deg := 10
     , base_distance := 65/100, default_spread := 12/100
     , motion_archetype := "gentle_drift"
     , energy_sensitivity := 15/100, flux_sensitivity := 10/100
     , brightness_sensitivity := 25/100 })
  , (("vocals", "unknown"),
     { category := "vocals", role := "unknown"
     , base_azimuth_deg := 0, azimuth_spread_deg := 35
     , base_elevation_deg := 8, elevation_range_deg := 15
     , base_distance := 70/100, default_spread := 18/100
     , motion_archetype := "gentle_drift"
     , energy_sensitivity := 15/100, flux_sensitivity := 10/100
     , brightness_sensitivity := 20/100 })
  , (("bass", "bass"),
     { category := "bass", role := "bass"
     , base_azimuth_deg := 0, azimuth_spread_deg := 10
     , base_elevation_deg := -5, elevation_range_deg := 5
     , base_distance := 55/100, default_spread := 20/100
     , motion_archetype := "static"
     , energy_sensitivity := 8/100, flux_sensitivity := 5/100
     , brightness_sensitivity := 0 })
  , (("drums", "percussion"),
     { category := "drums", role := "percussion"
     , base_azimuth_deg := 0, azimuth_spread_deg := 50
     , base_elevation_deg := 0, elevation_range_deg := 20
     , base_distance := 72/100, default_spread := 22/100
     , motion_archetype := "reactive"
     , energy_sensitivity := 35/100, flux_sensitivity := 50/100
     , brightness_sensitivity := 15/100 })
  , (("guitar", "rhythm"),
     { category := "guitar", role := "rhythm"
     , base_azimuth_deg := -25, azimuth_spread_deg := 30
     , base_elevation_deg := 0, elevation_range_deg := 10
     , base_distance := 65/100, default_spread := 15/100
     , motion_archetype := "gentle_drift"
     , energy_sensitivity := 20/100, flux_sensitivity := 15/100
     , brightness_sensitivity := 20/100 })
  , (("guitar", "lead"),
     { category := "guitar", role := "lead"
     , base_azimuth_deg := 15, azimuth_spread_deg := 20
     , base_elevation_deg := 3, elevation_range_deg := 8
     , base_distance := 60/100, default_spread := 12/100
     , motion_archetype := "gentle_drift"
     , energy_sensitivity := 20/100, flux_sensitivity := 15/100
     , brightness_sensitivity := 25/100 })
  , (("keys", "rhythm"),
     { category := "keys", role := "rhythm"
     , base_azimuth_deg := 20, azimuth_spread_deg := 25
     , base_elevation_deg := 0, elevation_range_deg := 10
     , base_distance := 65/100, default_spread := 18/100
     , motion_archetype := "gentle_drift"
     , energy_sensitivity := 15/100, flux_sensitivity := 10/100
     , brightness_sensitivity := 20/100 })
  , (("strings", "rhythm"),
     { category := "strings", role := "rhythm"
     , base_azimuth_deg := 0, azimuth_spread_deg := 55
     , base_elevation_deg := 10, elevation_range_deg := 20
     , base_distance := 75/100, default_spread := 28/100
     , motion_archetype := "gentle_drift"
     , energy_sensitivity := 20/100, flux_sensitivity := 15/100
     , brightness_sensitivity := 30/100 })
  , (("pads", "rhythm"),
     { category := "pads", role := "rhythm"
     , base_azimuth_deg := 0, azimuth_spread_deg := 70
     , base_elevation_deg := 15, elevation_range_deg := 25
     , base_distance := 80/100, default_spread := 35/100
     , motion_archetype := "orbit"
     , energy_sensitivity := 10/100, flux_sensitivity := 5/100
     , brightness_sensitivity := 15/100 })
  , (("fx", "fx"),
     { category := "fx", role := "fx"
     , base_azimuth_deg := 0, azimuth_spread_deg := 90
     , base_elevation_deg := 0, elevation_range_deg := 30
     , base_distance := 85/100, default_spread := 30/100
     , motion_archetype := "reactive"
     , energy_sensitivity := 40/100, flux_sensitivity := 60/100
     , brightness_sensitivity := 30/100 })
  , (("other", "unknown"),
     { category := "other", role := "unknown"
     , base_azimuth_deg := 0, azimuth_spread_deg := 40
     , base_elevation_deg := 0, elevation_range_deg := 10
     , base_distance := 70/100, default_spread := 20/100
     , motion_archetype := "static"
     , energy_sensitivity := 10/100, flux_sensitivity := 10/100
     , brightness_sensitivity := 10/100 }) ]

/-- The hard-coded "ultimate safety net" default of
`SPFResolver.get_instrument_profile` (`spf.py` lines 329-337). -/
def safetyNetProfile : InstrumentProfile :=
  { category := "other", role := "unknown"
  , base_azimuth_deg := 0, azimuth_spread_deg := 30
  , base_elevation_deg := 0, elevation_range_deg := 10
  , base_distance := 70/100, default_spread := 20/100
  , motion_archetype := "static"
  , energy_sensitivity := 10/100, flux_sensitivity := 10/100
  , brightness_sensitivity := 10/100 }

/-- Exact-key lookup in the ordered profile table (Python `key in dict` /
`dict[key]`). -/
def lookupExact (table : List ((String × String) × InstrumentProfile))
    (category role : String) : Option InstrumentProfile :=
  (table.find? (fun e => e.1 == (category, role))).map (·.2)

/-- First profile whose category matches, in insertion order (the
`for (cat, _rol), profile in ...` scan of `spf.py` lines 321-323). -/
def lookupCategory (table : List ((String × String) × InstrumentProfile))
    (category : String) : Option InstrumentProfile :=
  (table.find? (fun e => e.1.1 == category)).map (·.2)

/-- Embedding of `SPFResolver.get_instrument_profile` (`spf.py` lines
312-338): exact `(category, role)` → any role with matching category →
the `("other", "unknown")` entry, with a hard-coded safety net if even
that key is absent. -/
def getInstrumentProfile (table : List ((String × String) × InstrumentProfile))
    (category role : String) : InstrumentProfile :=
  match lookupExact table category role with
  | some p => p
  | none =>
    match lookupCategory table category with
    | some p => p
    | none => (lookupExact table "other" "unknown").getD safetyNetProfile

/-- Classification record consumed by the resolver: the
`classification.get("category", "unknown")` / `.get("role_hint", "unknown")`
fields (`spf.py` lines 367-368), with the dict-absence defaults already
applied. -/
structure Classification where
  category : String
  role_hint : String
deriving DecidableEq, Repr

/-- The stem-level acoustic features read by the gesture engine
(`mir_features.get("spectral_flux_mean", 0.0)` and
`.get("onset_density", 0.0)`), with dict-absence defaults applied. -/
structure MirFeatures where
  spectral_flux_mean : ℚ := 0
  onset_density : ℚ := 0
deriving DecidableEq, Repr

/-- The `mir_coupling` dict of a resolved profile: exactly the three keys
written at `spf.py` lines 424-428. -/
structure MirCoupling where
  energy : ℚ
  flux : ℚ
  brightness : ℚ
deriving DecidableEq, Repr

/-- The reproducibility trace written at `spf.py` lines 431-438 (the
optional `tags` echo, absent in every claim, is omitted). -/
structure ResolveTrace where
  profile_key : List String
  z_snapshot : List ℚ
  azimuth_deg : ℚ
  elevation_deg : ℚ
  distance : ℚ
  stereo_side : Option String
deriving DecidableEq, Repr

/-- Embedding of the `StyleProfile` dataclass (`spf.py` lines 56-83). -/
structure StyleProfile where
  node_id : String
  category : String
  role : String
  base_x : ℚ
  base_y : ℚ
  base_z : ℚ
  spread : ℚ
  motion_intensity : ℚ
  motion_type : String
  mir_coupling : MirCoupling
  trace : ResolveTrace
deriving DecidableEq, Repr

/-- Embedding of `spherical_to_cartesian` (`spf.py` lines 90-109), with the
degree-argument sine and cosine as uninterpreted parameters `sinD`, `cosD`. -/
def sphericalToCartesian (sinD cosD : ℚ → ℚ) (azimuth_deg elevation_deg distance : ℚ) :
    ℚ × ℚ × ℚ :=
  ( distance * cosD elevation_deg * sinD azimuth_deg
  , distance * cosD elevation_deg * cosD azimuth_deg
  , distance * sinD elevation_deg )

/-- The azimuth block of `SPFResolver.resolve_style_profile` (`spf.py`
lines 382-395): stereo halves are offset by `∓ az_spread/2`; a mono object
gets the deterministic-looking offset `az_spread * (hash(node_id) % 1000 /
1000 - 0.5)` derived from Python's process-salted builtin `hash`
(Python `%` on ints is `Int.emod`). -/
def resolveAzimuthDeg (hashFn : String → ℤ) (profile : InstrumentProfile)
    (placement_spread : ℚ) (node_id : String) (stereo_side : Option String) : ℚ :=
  let az_spread := profile.azimuth_spread_deg * placement_spread
  match stereo_side with
  | some "left" => profile.base_azimuth_deg - az_spread * (1/2)
  | some "right" => profile.base_azimuth_deg + az_spread * (1/2)
  | _ =>
    let nid_hash : ℚ := ((hashFn node_id % 1000 : ℤ) : ℚ) / 1000
    profile.base_azimuth_deg + az_spread * (nid_hash - 1/2)

/-- Embedding of `SPFResolver.resolve_style_profile` (`spf.py` lines
344-454).  `hashFn` models Python's process-salted builtin `hash`;
`sinD`/`cosD` are the uninterpreted degree-based oscillators.  The unused
`mirFeatures` argument mirrors the unused `mir_features` parameter of the
source. -/
def resolveStyleProfile (hashFn : String → ℤ) (sinD cosD : ℚ → ℚ)
    (table : List ((String × String) × InstrumentProfile))
    (node_id : String) (classification : Classification)
    (mirFeatures : MirFeatures) (style_vector : List ℚ)
    (stereo_side : Option String) : StyleProfile :=
  let category := classification.category
  let role := classification.role_hint
  let profile := getInstrumentProfile table category role
  let placement_spread := style_vector.getD 0 0
  let height_usage := style_vector.getD 1 0
  let motion_intensity := style_vector.getD 2 0
  let front_back_bias := style_vector.getD 5 0
  let modulation_sens := style_vector.getD 7 0
  -- Azimuth
  let az_deg := resolveAzimuthDeg hashFn profile placement_spread node_id stereo_side
  -- Elevation
  let el_deg := profile.base_elevation_deg + profile.elevation_range_deg * height_usage
  -- Distance
  let dist0 := profile.base_distance * (7/10 + 3/10 * front_back_bias)
  let dist := max 0 (min 1 dist0)
  -- Cartesian
  let bc := sphericalToCartesian sinD cosD az_deg el_deg dist
  let bcc := clampToCube bc.1 bc.2.1 bc.2.2
  -- Spread
  let spread := max 0 (min 1 (profile.default_spread * (1/2 + 1/2 * placement_spread)))
  -- Motion type
  let motion_type :=
    if motion_intensity < 1/10 then "static"
    else if profile.motion_archetype = "orbit" ∧ motion_intensity < 4/10 then "gentle_drift"
    else if profile.motion_archetype = "reactive" ∧ motion_intensity < 25/100 then "gentle_drift"
    else profile.motion_archetype
  { node_id := node_id
  , category := category
  , role := role
  , base_x := pyRound 4 bcc.1
  , base_y := pyRound 4 bcc.2.1
  , base_z := pyRound 4 bcc.2.2
  , spread := pyRound 4 spread
  , motion_intensity := pyRound 4 motion_intensity
  , motion_type := motion_type
  , mir_coupling :=
    { energy := profile.energy_sensitivity * modulation_sens
    , flux := profile.flux_sensitivity * modulation_sens
    , brightness := profile.brightness_sensitivity * modulation_sens }
  , trace :=
    { profile_key := [category, role]
    , z_snapshot := style_vector
    , azimuth_deg := pyRound 2 az_deg
    , elevation_deg := pyRound 2 el_deg
    , distance := pyRound 3 dist
    , stereo_side := stereo_side } }

-- ======================================================================
-- Placement engine (src/placement.py)
-- ======================================================================

/-- Embedding of `PlacementEngine.apply_front_back_bias` (`placement.py`
lines 85-104): the placeholder linear rescaling
`adjusted_y = y * (0.5 + 0.5 * front_back_bias)`. -/
def applyFrontBackBias (y front_back_bias : ℚ) : ℚ :=
  y * (1/2 + 1/2 * front_back_bias)

/-- Embedding of `PlacementEngine.apply_height_constraint` (`placement.py`
lines 106-125). -/
def applyHeightConstraint (z height_usage : ℚ) (no_height : Bool) : ℚ :=
  if no_height then 0 else z * height_usage

/-- Embedding of `PlacementEngine.compute_placement` (`placement.py` lines
127-170): start with the profile base, apply front/back bias to Y and
height scaling to Z, then clamp each axis to the cube via `np.clip`.
(The clamp-event log is diagnostic only and not modelled.) -/
def computePlacement (profile : StyleProfile) (style_vector : List ℚ) : ℚ × ℚ × ℚ :=
  let height_usage := style_vector.getD 1 0
  let front_back_bias := style_vector.getD 5 0
  let x := profile.base_x
  let y := applyFrontBackBias profile.base_y front_back_bias
  let z := applyHeightConstraint profile.base_z height_usage false
  (npClip x (-1) 1, npClip y (-1) 1, npClip z (-1) 1)

-- ======================================================================
-- C7: lookup fallback totality
-- ======================================================================

/-- C7: for every table and all string inputs, `get_instrument_profile` is
total and follows the three-level fallback: the exact `(category, role)`
entry when present; otherwise the first entry with matching category;
otherwise the table's global `("other", "unknown")` default (with a
hard-coded safety net if even that is absent). -/
theorem c7_lookup_total_fallback
    (table : List ((String × String) × InstrumentProfile))
    (category role : String) :
    (∀ p, lookupExact table category role = some p →
      getInstrumentProfile table category role = p) ∧
    (lookupExact table category role = none →
      ∀ p, lookupCategory table category = some p →
        getInstrumentProfile table category role = p) ∧
    (lookupExact table category role = none →
      lookupCategory table category = none →
      getInstrumentProfile table category role =
        (lookupExact table "other" "unknown").getD safetyNetProfile) := by
  refine ⟨?_, ?_, ?_⟩
  · intro p hp
    unfold getInstrumentProfile
    rw [hp]
  · intro hnone p hp
    unfold getInstrumentProfile
    rw [hnone, hp]
  · intro hnone hcat
    unfold getInstrumentProfile
    rw [hnone, hcat]

/-- Witness for C7: the unknown pair `("synth", "x")` matches no entry and
no category of the default table and falls through to the global
`("other", "unknown")` default profile. -/
theorem c7_lookup_total_fallback_witness :
    lookupExact defaultProfiles "synth" "x" = none ∧
    lookupCategory defaultProfiles "synth" = none ∧
    getInstrumentProfile defaultProfiles "synth" "x" =
      (lookupExact defaultProfiles "other" "unknown").getD safetyNetProfile :=
  ⟨by decide, by decide,
    (c7_lookup_total_fallback defaultProfiles "synth" "x").2.2
      (by decide) (by decide)⟩

-- ======================================================================
-- C1: determinism of the full pipeline across independent runs
-- ======================================================================

/-- The per-node deterministic-looking drift/orbit phase of
`gesture_engine.py` lines 92 and 137, in turns:
`(hash(node_id) % 1000) / 1000.0` (the code multiplies by `2π`). -/
def gesturePhaseTurns (hashFn : String → ℤ) (node_id : String) : ℚ :=
  ((hashFn node_id % 1000 : ℤ) : ℚ) / 1000

/-- The per-node RNG seed of the reactive generator
(`gesture_engine.py` line 187): `hash(node_id) % (2**31)`. -/
def reactiveSeed (hashFn : String → ℤ) (node_id : String) : ℤ :=
  hashFn node_id % 2 ^ 31

/-- C1 (code bug): the scene output is NOT reproducible across independent
runs.  The mono-object azimuth offset (`spf.py` line 394), the drift/orbit
phase (`gesture_engine.py` lines 92/137) and the reactive burst-time RNG
seed (`gesture_engine.py` line 187) are all derived from Python's builtin
`hash`, which is salted per process (PYTHONHASHSEED); two runs of the same
pipeline correspond to two different hash functions and produce different
profiles, hence different scene bytes.  Concretely: with the hash of
`"11.1"` equal to `0` in one process and `500` in another, the resolved
bass profile's traced azimuth is `-3.25°` versus `0°`, and phase and RNG
seed differ likewise. -/
theorem c1_hash_process_dependence :
    ((resolveStyleProfile (fun _ => 0) (fun _ => 0) (fun _ => 0)
        defaultProfiles "11.1" ⟨"bass", "bass"⟩ {}
        (mapUVtoZ (1/2) (3/10)) none).trace.azimuth_deg = -(325/100) ∧
     (resolveStyleProfile (fun _ => 500) (fun _ => 0) (fun _ => 0)
        defaultProfiles "11.1" ⟨"bass", "bass"⟩ {}
        (mapUVtoZ (1/2) (3/10)) none).trace.azimuth_deg = 0) ∧
    (resolveStyleProfile (fun _ => 0) (fun _ => 0) (fun _ => 0)
        defaultProfiles "11.1" ⟨"bass", "bass"⟩ {}
        (mapUVtoZ (1/2) (3/10)) none ≠
     resolveStyleProfile (fun _ => 500) (fun _ => 0) (fun _ => 0)
        defaultProfiles "11.1" ⟨"bass", "bass"⟩ {}
        (mapUVtoZ (1/2) (3/10)) none) ∧
    gesturePhaseTurns (fun _ => 0) "11.1" ≠ gesturePhaseTurns (fun _ => 500) "11.1" ∧
    reactiveSeed (fun _ => 0) "11.1" ≠ reactiveSeed (fun _ => 500) "11.1" := by
  have hproj : ∀ hashFn : String → ℤ,
      (resolveStyleProfile hashFn (fun _ => 0) (fun _ => 0)
        defaultProfiles "11.1" ⟨"bass", "bass"⟩ {}
        (mapUVtoZ (1/2) (3/10)) none).trace.azimuth_deg =
      pyRound 2 (resolveAzimuthDeg hashFn
        (getInstrumentProfile defaultProfiles "bass" "bass")
        ((mapUVtoZ (1/2) (3/10)).getD 0 0) "11.1" none) :=
    fun _ => rfl
  have hprof : getInstrumentProfile defaultProfiles "bass" "bass" =
      (defaultProfiles.getD 2 (("", ""), safetyNetProfile)).2 := rfl
  have h1 : (resolveStyleProfile (fun _ => 0) (fun _ => 0) (fun _ => 0)
      defaultProfiles "11.1" ⟨"bass", "bass"⟩ {}
      (mapUVtoZ (1/2) (3/10)) none).trace.azimuth_deg = -(325/100) := by
    rw [hproj, hprof]
    norm_num [defaultProfiles, resolveAzimuthDeg, mapUVtoZ, npClip, pyRound, roundHalfEven]
  have h2 : (resolveStyleProfile (fun _ => 500) (fun _ => 0) (fun _ => 0)
      defaultProfiles "11.1" ⟨"bass", "bass"⟩ {}
      (mapUVtoZ (1/2) (3/10)) none).trace.azimuth_deg = 0 := by
    rw [hproj, hprof]
    norm_num [defaultProfiles, resolveAzimuthDeg, mapUVtoZ, npClip, pyRound, roundHalfEven]
  refine ⟨⟨h1, h2⟩, ?_, ?_, ?_⟩
  · intro h
    rw [h, h2] at h1
    norm_num at h1
  · unfold gesturePhaseTurns
    norm_num
  · unfold reactiveSeed
    decide

-- ======================================================================
-- Gesture engine (src/gesture_engine.py)
-- ======================================================================

/-- Embedding of the `Keyframe` dataclass (`gesture_engine.py` lines 23-30). -/
structure Keyframe where
  time : ℚ
  x : ℚ
  y : ℚ
  z : ℚ
  spread : Option Rat := none
deriving DecidableEq, Repr

/-- `GestureEngine.POS_EPSILON` (0.01). -/
def POS_EPSILON : ℚ := 1/100

/-- `GestureEngine.SPREAD_EPSILON` (0.02). -/
def SPREAD_EPSILON : ℚ := 1/50

/-- The retention test of `GestureEngine._apply_emission_threshold`
(`gesture_engine.py` lines 278-283): keep `kf` iff its position delta from
the last retained keyframe `prev` reaches `POS_EPSILON` or its spread delta
reaches `SPREAD_EPSILON` (`kf.spread or 0` is `Option.getD · 0`). -/
def keepKeyframe (prev kf : Keyframe) : Prop :=
  max (|kf.x - prev.x|) (max (|kf.y - prev.y|) (|kf.z - prev.z|)) ≥ POS_EPSILON ∨
    |kf.spread.getD 0 - prev.spread.getD 0| ≥ SPREAD_EPSILON

instance (prev kf : Keyframe) : Decidable (keepKeyframe prev kf) := by
  unfold keepKeyframe
  infer_instance

/-- The interior loop of `_apply_emission_threshold`: walk the interior
keyframes, keeping a keyframe (and making it the new reference) exactly
when `keepKeyframe` holds against the last retained one. -/
def emissionFold (prev : Keyframe) : List Keyframe → List Keyframe
  | [] => []
  | kf :: rest =>
    if keepKeyframe prev kf then kf :: emissionFold kf rest
    else emissionFold prev rest

/-- Embedding of `GestureEngine._apply_emission_threshold`
(`gesture_engine.py` lines 267-286): lists of at most two keyframes pass
through (the `len(keyframes) <= 2` early return); otherwise the first
keyframe, the retained interior keyframes, and the last keyframe. -/
def applyEmissionThreshold : List Keyframe → List Keyframe
  | [] => []
  | [k] => [k]
  | [k1, k2] => [k1, k2]
  | k0 :: rest => k0 :: (emissionFold k0 rest.dropLast ++ rest.getLast?.toList)

/-- Embedding of `GestureEngine.generate_static_gesture` (`gesture_engine.py`
lines 55-61). -/
def generateStaticGesture (x y z spread : ℚ) : List Keyframe :=
  [{ time := 0, x := x, y := y, z := z, spread := some spread }]

/-- Iteration count of the `t = 0.0; while t <= duration: ...; t += interval`
loops, for `interval > 0` and `duration ≥ 0`: samples at
`t = k * interval`, `k = 0, ..., ⌊duration/interval⌋`. -/
def sampleCount (duration interval : ℚ) : ℕ := (⌊duration / interval⌋).toNat + 1

/-- Embedding of `GestureEngine.generate_drift_gesture` (`gesture_engine.py`
lines 63-113).  `oscS u` / `oscC u` stand for `sin(2πu)` / `cos(2πu)`;
the code's `angle = 2π(t/period) + phase` is carried in turns. -/
def generateDriftGesture (duration : ℚ) (oscS oscC : ℚ → ℚ) (hashFn : String → ℤ)
    (node_id : String) (start_pos : ℚ × ℚ × ℚ) (spread : ℚ)
    (profile : StyleProfile) (mir_features : MirFeatures) : List Keyframe :=
  let x0 := start_pos.1
  let y0 := start_pos.2.1
  let z0 := start_pos.2.2
  let intensity := profile.motion_intensity
  let flux_coup := profile.mir_coupling.flux
  let amp0 := 5/100 + 10/100 * intensity
  let amp := amp0 + flux_coup * (min mir_features.spectral_flux_mean 1) * (5/100)
  let period := max 4 (16 * (1 - intensity))
  let phase := gesturePhaseTurns hashFn node_id
  let interval := max 2 (period / 4)
  let loopKfs := (List.range (sampleCount duration interval)).map (fun (k : ℕ) =>
    let t := (k : ℚ) * interval
    let turns := t / period + phase
    let dx := amp * oscS turns
    let dy := amp * (1/2) * oscC ((7/10) * turns)   -- slower Y wobble
    let p := clampToCube (x0 + dx) (y0 + dy) (z0 + 0)
    { time := pyRound 3 t, x := p.1, y := p.2.1, z := p.2.2,
      spread := some spread : Keyframe })
  let withEnd :=
    match loopKfs.getLast? with
    | some lastKf =>
      if lastKf.time < duration then
        let p := clampToCube x0 y0 z0
        loopKfs ++ [{ time := pyRound 3 duration, x := p.1, y := p.2.1,
                      z := p.2.2, spread := some spread }]
      else loopKfs
    | none => loopKfs
  applyEmissionThreshold withEnd

/-- Embedding of `GestureEngine.generate_orbit_gesture` (`gesture_engine.py`
lines 115-156), with the same turns convention for the oscillators. -/
def generateOrbitGesture (duration : ℚ) (oscS oscC : ℚ → ℚ) (hashFn : String → ℤ)
    (node_id : String) (center_pos : ℚ × ℚ × ℚ) (spread : ℚ)
    (profile : StyleProfile) (mir_features : MirFeatures) : List Keyframe :=
  let cx := center_pos.1
  let cy := center_pos.2.1
  let cz := center_pos.2.2
  let intensity := profile.motion_intensity
  let radius := 10/100 + 25/100 * intensity
  let period := max 6 (16 * (1 - intensity))
  let phase := gesturePhaseTurns hashFn node_id
  let ry := radius * (6/10)
  let interval := period / 8
  let loopKfs := (List.range (sampleCount duration interval)).map (fun (k : ℕ) =>
    let t := (k : ℚ) * interval
    let turns := t / period + phase
    let dx := radius * oscC turns
    let dy := ry * oscS turns
    let p := clampToCube (cx + dx) (cy + dy) cz
    { time := pyRound 3 t, x := p.1, y := p.2.1, z := p.2.2,
      spread := some spread : Keyframe })
  applyEmissionThreshold loopKfs

/-- Embedding of `GestureEngine.generate_reactive_gesture`
(`gesture_engine.py` lines 158-207).  The `np.random.RandomState` seeded
from the process-salted `hash(node_id)` is modelled by oracles: `burstTimes`
stands for `sorted(rng.uniform(0.5, duration - 0.5, size=n_bursts))` and
`draws` for the subsequent per-burst `rng.uniform` jitter and spread draws
(four per burst, in call order). -/
def generateReactiveGesture (duration : ℚ) (burstTimes : List ℚ) (draws : ℕ → ℚ)
    (base_pos : ℚ × ℚ × ℚ) (spread : ℚ)
    (profile : StyleProfile) (mir_features : MirFeatures) : List Keyframe :=
  let x0 := base_pos.1
  let y0 := base_pos.2.1
  let z0 := base_pos.2.2
  let k0 : Keyframe := { time := 0, x := x0, y := y0, z := z0, spread := some spread }
  let burstKfs := (List.range burstTimes.length).map (fun j =>
    let bt := burstTimes.getD j 0
    let dx := draws (4 * j)
    let dy := draws (4 * j + 1)
    let dz := draws (4 * j + 2)
    let p := clampToCube (x0 + dx) (y0 + dy) (z0 + dz)
    let sp := min 1 (spread + draws (4 * j + 3))
    { time := pyRound 3 bt, x := p.1, y := p.2.1, z := p.2.2,
      spread := some (pyRound 4 sp) : Keyframe })
  let endKf : Keyframe :=
    { time := pyRound 3 duration, x := x0, y := y0, z := z0, spread := some spread }
  applyEmissionThreshold (k0 :: burstKfs ++ [endKf])

/-- Embedding of `GestureEngine.generate_gesture` (`gesture_engine.py`
lines 213-236): dispatch on the resolved motion type, with the static
short-circuit for `motion_intensity < 0.05` and the static fallback for
unknown motion types. -/
def generateGesture (duration : ℚ) (hashFn : String → ℤ) (oscS oscC : ℚ → ℚ)
    (burstTimes : List ℚ) (draws : ℕ → ℚ) (node_id : String)
    (placement : ℚ × ℚ × ℚ) (profile : StyleProfile)
    (mir_features : MirFeatures) : List Keyframe :=
  if profile.motion_intensity < 5/100 ∨ profile.motion_type = "static" then
    generateStaticGesture placement.1 placement.2.1 placement.2.2 profile.spread
  else if profile.motion_type = "gentle_drift" ∨ profile.motion_type = "drift" then
    generateDriftGesture duration oscS oscC hashFn node_id placement profile.spread
      profile mir_features
  else if profile.motion_type = "orbit" then
    generateOrbitGesture duration oscS oscC hashFn node_id placement profile.spread
      profile mir_features
  else if profile.motion_type = "reactive" then
    generateReactiveGesture duration burstTimes draws placement profile.spread
      profile mir_features
  else
    generateStaticGesture placement.1 placement.2.1 placement.2.2 profile.spread

-- ======================================================================
-- Emission-threshold filter lemmas and C5
-- ======================================================================

theorem mem_of_getLast?_eq {α : Type} {l : List α} {a : α}
    (h : l.getLast? = some a) : a ∈ l := by
  cases l with
  | nil => simp at h
  | cons b bs =>
    have hne : (b :: bs) ≠ [] := by simp
    rw [List.getLast?_eq_getLast _ hne] at h
    have ha : a = (b :: bs).getLast hne := by
      injection h with h
      exact h.symm
    rw [ha]
    exact List.getLast_mem hne

theorem emissionFold_length_le (prev : Keyframe) (mids : List Keyframe) :
    (emissionFold prev mids).length ≤ mids.length := by
  induction mids generalizing prev with
  | nil => simp [emissionFold]
  | cons kf rest ih =>
    unfold emissionFold
    split
    · simpa using ih kf
    · exact le_trans (ih prev) (Nat.le_succ _)

theorem emissionFold_subset (prev : Keyframe) (mids : List Keyframe) :
    ∀ kf ∈ emissionFold prev mids, kf ∈ mids := by
  induction mids generalizing prev with
  | nil => simp [emissionFold]
  | cons kf rest ih =>
    intro x hx
    unfold emissionFold at hx
    split at hx
    · rcases List.mem_cons.mp hx with h | h
      · exact h ▸ List.mem_cons_self _ _
      · exact List.mem_cons_of_mem _ (ih kf x h)
    · exact List.mem_cons_of_mem _ (ih prev x hx)

theorem emissionFold_skip (prev kf : Keyframe) (rest : List Keyframe)
    (h : ¬ keepKeyframe prev kf) :
    emissionFold prev (kf :: rest) = emissionFold prev rest := by
  simp only [emissionFold]
  rw [if_neg h]

/-- On a list of length at least three, the filter is the head, the kept
interior keyframes, and the last element. -/
theorem applyEmissionThreshold_cons3 (k0 r s : Keyframe) (ss : List Keyframe) :
    applyEmissionThreshold (k0 :: r :: s :: ss) =
      k0 :: (emissionFold k0 ((r :: s :: ss).dropLast) ++
        ((r :: s :: ss).getLast?).toList) := rfl

theorem applyEmissionThreshold_head? (l : List Keyframe) :
    (applyEmissionThreshold l).head? = l.head? := by
  cases l with
  | nil => rfl
  | cons k0 rest =>
    cases rest with
    | nil => rfl
    | cons r rs =>
      cases rs with
      | nil => rfl
      | cons s ss =>
        rw [applyEmissionThreshold_cons3]
        rfl

theorem applyEmissionThreshold_getLast? (l : List Keyframe) :
    (applyEmissionThreshold l).getLast? = l.getLast? := by
  cases l with
  | nil => rfl
  | cons k0 rest =>
    cases rest with
    | nil => rfl
    | cons r rs =>
      cases rs with
      | nil => rfl
      | cons s ss =>
        rw [applyEmissionThreshold_cons3]
        have hne : (r :: s :: ss : List Keyframe) ≠ [] := by simp
        cases hq : (r :: s :: ss).getLast? with
        | none =>
          rw [List.getLast?_eq_none_iff] at hq
          exact absurd hq hne
        | some x =>
          have hsplit : (k0 :: (emissionFold k0 ((r :: s :: ss).dropLast) ++
              (some x : Option Keyframe).toList)) =
              (k0 :: emissionFold k0 ((r :: s :: ss).dropLast)) ++ [x] := by
            simp
          rw [hsplit, List.getLast?_concat, List.getLast?_cons_cons, hq]

theorem applyEmissionThreshold_length (l : List Keyframe) :
    (applyEmissionThreshold l).length ≤ l.length := by
  cases l with
  | nil => exact le_refl _
  | cons k0 rest =>
    cases rest with
    | nil => exact le_refl _
    | cons r rs =>
      cases rs with
      | nil => exact le_refl _
      | cons s ss =>
        rw [applyEmissionThreshold_cons3]
        have h1 := emissionFold_length_le k0 ((r :: s :: ss).dropLast)
        have h2 : ((r :: s :: ss).dropLast).length = (s :: ss).length := by
          simp [List.length_dropLast]
        have h3 : (((r :: s :: ss).getLast?).toList).length ≤ 1 := by
          cases (r :: s :: ss).getLast? <;> simp
        simp only [List.length_cons, List.length_append] at *
        omega

theorem applyEmissionThreshold_tail_mem (l : List Keyframe) :
    ∀ kf ∈ (applyEmissionThreshold l).tail, kf ∈ l.tail := by
  cases l with
  | nil => intro kf h; exact h
  | cons k0 rest =>
    cases rest with
    | nil => intro kf h; exact h
    | cons r rs =>
      cases rs with
      | nil => intro kf h; exact h
      | cons s ss =>
        rw [applyEmissionThreshold_cons3]
        intro kf h
        simp only [List.tail_cons] at h ⊢
        rcases List.mem_append.mp h with h | h
        · exact (List.dropLast_sublist (r :: s :: ss)).mem
            (emissionFold_subset k0 ((r :: s :: ss).dropLast) kf h)
        · cases hq : (r :: s :: ss).getLast? with
          | none => rw [hq] at h; simp at h
          | some x =>
            rw [hq] at h
            simp at h
            exact h ▸ mem_of_getLast?_eq hq

theorem applyEmissionThreshold_mem (l : List Keyframe) :
    ∀ kf ∈ applyEmissionThreshold l, kf ∈ l := by
  intro kf h
  cases hl : applyEmissionThreshold l with
  | nil => rw [hl] at h; simp at h
  | cons a t =>
    rw [hl] at h
    rcases List.mem_cons.mp h with h | h
    · have hh := applyEmissionThreshold_head? l
      rw [hl] at hh
      cases l with
      | nil => simp at hh
      | cons b bs =>
        simp only [List.head?_cons, Option.some.injEq] at hh
        rw [h, ← hh]
        exact List.mem_cons_self _ _
    · have ht := applyEmissionThreshold_tail_mem l kf
      rw [hl] at ht
      have := ht (by simpa using h)
      exact List.mem_of_mem_tail this

/-- C5: the emission-threshold filter keeps the first and last keyframes
(stated via `head?`/`getLast?`, so it also covers the untouched short
lists), never increases the length, and drops an interior keyframe exactly
when both its position delta and its spread delta from the last retained
keyframe are below the epsilons (the `emissionFold` step function leaves
the output unchanged on such a keyframe). -/
theorem c5_emission_filter (l : List Keyframe) :
    (applyEmissionThreshold l).head? = l.head? ∧
    (applyEmissionThreshold l).getLast? = l.getLast? ∧
    (applyEmissionThreshold l).length ≤ l.length ∧
    (∀ prev kf rest, ¬ keepKeyframe prev kf →
      emissionFold prev (kf :: rest) = emissionFold prev rest) :=
  ⟨applyEmissionThreshold_head? l, applyEmissionThreshold_getLast? l,
    applyEmissionThreshold_length l,
    fun prev kf rest h => emissionFold_skip prev kf rest h⟩

/-- Witness for C5: the filter applied to a concrete three-keyframe list
(interior keyframe within both epsilons of the first) keeps first and last,
drops the interior one, and an explicit below-threshold skip step. -/
theorem c5_emission_filter_witness :
    ((applyEmissionThreshold
        [ { time := 0, x := 0, y := 0, z := 0, spread := some (1/10) }
        , { time := 1, x := 1/1000, y := 0, z := 0, spread := some (1/10) }
        , { time := 2, x := 1/2, y := 0, z := 0, spread := some (1/10) } ]).head? =
      some { time := 0, x := 0, y := 0, z := 0, spread := some (1/10) } ∧
     (applyEmissionThreshold
        [ { time := 0, x := 0, y := 0, z := 0, spread := some (1/10) }
        , { time := 1, x := 1/1000, y := 0, z := 0, spread := some (1/10) }
        , { time := 2, x := 1/2, y := 0, z := 0, spread := some (1/10) } ]).getLast? =
      some { time := 2, x := 1/2, y := 0, z := 0, spread := some (1/10) }) ∧
    emissionFold { time := 0, x := 0, y := 0, z := 0, spread := some (1/10) }
      [{ time := 1, x := 1/1000, y := 0, z := 0, spread := some (1/10) }] =
      emissionFold { time := 0, x := 0, y := 0, z := 0, spread := some (1/10) } [] := by
  have h := c5_emission_filter
    [ { time := 0, x := 0, y := 0, z := 0, spread := some (1/10) }
    , { time := 1, x := 1/1000, y := 0, z := 0, spread := some (1/10) }
    , { time := 2, x := 1/2, y := 0, z := 0, spread := some (1/10) } ]
  refine ⟨⟨?_, ?_⟩, ?_⟩
  · rw [h.1]
    rfl
  · rw [h.2.1]
    rfl
  · refine h.2.2.2 _ _ _ ?_
    unfold keepKeyframe POS_EPSILON SPREAD_EPSILON
    norm_num
    rw [abs_of_nonneg (by norm_num : (0:ℚ) ≤ 1/1000)]
    norm_num

-- ======================================================================
-- C2: cube invariant
-- ======================================================================

/-- Shorthand for `(x, y, z)` lying in the normalized cube. -/
def inCube (kf : Keyframe) : Prop :=
  (-1 ≤ kf.x ∧ kf.x ≤ 1) ∧ (-1 ≤ kf.y ∧ kf.y ≤ 1) ∧ (-1 ≤ kf.z ∧ kf.z ≤ 1)

theorem inCube_of_clamped (t a b c : ℚ) (sp : Option ℚ) :
    inCube { time := t, x := (clampToCube a b c).1, y := (clampToCube a b c).2.1,
             z := (clampToCube a b c).2.2, spread := sp } := by
  unfold inCube clampToCube
  exact ⟨clampUnit_mem a, clampUnit_mem b, clampUnit_mem c⟩

theorem generateDriftGesture_inCube (duration : ℚ) (oscS oscC : ℚ → ℚ)
    (hashFn : String → ℤ) (node_id : String) (start_pos : ℚ × ℚ × ℚ)
    (spread : ℚ) (profile : StyleProfile) (mir_features : MirFeatures) :
    ∀ kf ∈ generateDriftGesture duration oscS oscC hashFn node_id start_pos
      spread profile mir_features, inCube kf := by
  intro kf hkf
  simp only [generateDriftGesture] at hkf
  have hmem := applyEmissionThreshold_mem _ kf hkf
  split at hmem
  · next lastKf hlast =>
    split at hmem
    · rcases List.mem_append.mp hmem with h | h
      · rcases List.mem_map.mp h with ⟨k, _, rfl⟩
        exact inCube_of_clamped _ _ _ _ _
      · simp only [List.mem_singleton] at h
        subst h
        exact inCube_of_clamped _ _ _ _ _
    · rcases List.mem_map.mp hmem with ⟨k, _, rfl⟩
      exact inCube_of_clamped _ _ _ _ _
  · rcases List.mem_map.mp hmem with ⟨k, _, rfl⟩
    exact inCube_of_clamped _ _ _ _ _

theorem generateOrbitGesture_inCube (duration : ℚ) (oscS oscC : ℚ → ℚ)
    (hashFn : String → ℤ) (node_id : String) (center_pos : ℚ × ℚ × ℚ)
    (spread : ℚ) (profile : StyleProfile) (mir_features : MirFeatures) :
    ∀ kf ∈ generateOrbitGesture duration oscS oscC hashFn node_id center_pos
      spread profile mir_features, inCube kf := by
  intro kf hkf
  simp only [generateOrbitGesture] at hkf
  have hmem := applyEmissionThreshold_mem _ kf hkf
  rcases List.mem_map.mp hmem with ⟨k, _, rfl⟩
  exact inCube_of_clamped _ _ _ _ _

theorem generateReactiveGesture_inCube (duration : ℚ) (burstTimes : List ℚ)
    (draws : ℕ → ℚ) (base_pos : ℚ × ℚ × ℚ) (spread : ℚ)
    (profile : StyleProfile) (mir_features : MirFeatures)
    (hx : -1 ≤ base_pos.1 ∧ base_pos.1 ≤ 1)
    (hy : -1 ≤ base_pos.2.1 ∧ base_pos.2.1 ≤ 1)
    (hz : -1 ≤ base_pos.2.2 ∧ base_pos.2.2 ≤ 1) :
    ∀ kf ∈ generateReactiveGesture duration burstTimes draws base_pos spread
      profile mir_features, inCube kf := by
  intro kf hkf
  simp only [generateReactiveGesture] at hkf
  have hmem := applyEmissionThreshold_mem _ kf hkf
  rcases List.mem_cons.mp hmem with h | h
  · subst h
    exact ⟨hx, hy, hz⟩
  · rcases List.mem_append.mp h with h | h
    · rcases List.mem_map.mp h with ⟨j, _, rfl⟩
      exact inCube_of_clamped _ _ _ _ _
    · simp only [List.mem_singleton] at h
      subst h
      exact ⟨hx, hy, hz⟩

theorem generateStaticGesture_inCube (x y z spread : ℚ)
    (hx : -1 ≤ x ∧ x ≤ 1) (hy : -1 ≤ y ∧ y ≤ 1) (hz : -1 ≤ z ∧ z ≤ 1) :
    ∀ kf ∈ generateStaticGesture x y z spread, inCube kf := by
  intro kf hkf
  simp only [generateStaticGesture, List.mem_singleton] at hkf
  subst hkf
  exact ⟨hx, hy, hz⟩

/-- C2: the resolved profile base position always lies in the cube (it is
clamped and then rounded), and, for a base placement inside the cube, every
keyframe produced by any of the four motion generators (through the
dispatcher, hence static, gentle drift, orbit, reactive and the static
fallback) has all of x, y, z in `[-1, 1]` — for every duration, oscillator
interpretation, burst-time list and RNG draw oracle. -/
theorem c2_cube_invariant
    (hashFn : String → ℤ) (sinD cosD oscS oscC : ℚ → ℚ)
    (table : List ((String × String) × InstrumentProfile))
    (node_id : String) (classification : Classification)
    (mirF : MirFeatures) (z : List ℚ) (side : Option String)
    (duration : ℚ) (burstTimes : List ℚ) (draws : ℕ → ℚ)
    (placement : ℚ × ℚ × ℚ) (profile : StyleProfile) (mir : MirFeatures)
    (hx : -1 ≤ placement.1 ∧ placement.1 ≤ 1)
    (hy : -1 ≤ placement.2.1 ∧ placement.2.1 ≤ 1)
    (hz : -1 ≤ placement.2.2 ∧ placement.2.2 ≤ 1) :
    ((-1 ≤ (resolveStyleProfile hashFn sinD cosD table node_id classification
        mirF z side).base_x ∧
      (resolveStyleProfile hashFn sinD cosD table node_id classification
        mirF z side).base_x ≤ 1) ∧
     (-1 ≤ (resolveStyleProfile hashFn sinD cosD table node_id classification
        mirF z side).base_y ∧
      (resolveStyleProfile hashFn sinD cosD table node_id classification
        mirF z side).base_y ≤ 1) ∧
     (-1 ≤ (resolveStyleProfile hashFn sinD cosD table node_id classification
        mirF z side).base_z ∧
      (resolveStyleProfile hashFn sinD cosD table node_id classification
        mirF z side).base_z ≤ 1)) ∧
    ∀ kf ∈ generateGesture duration hashFn oscS oscC burstTimes draws node_id
      placement profile mir, inCube kf := by
  constructor
  · have hb : ∀ q : ℚ, -1 ≤ pyRound 4 (clampUnit q) ∧ pyRound 4 (clampUnit q) ≤ 1 := by
      intro q
      have h := clampUnit_mem q
      have h2 := pyRound_mem_int 4 (clampUnit q) (-1) 1
        (by exact_mod_cast h.1) (by exact_mod_cast h.2)
      constructor
      · exact_mod_cast h2.1
      · exact_mod_cast h2.2
    simp only [resolveStyleProfile, clampToCube]
    exact ⟨hb _, hb _, hb _⟩
  · intro kf hkf
    unfold generateGesture at hkf
    split at hkf
    · exact generateStaticGesture_inCube _ _ _ _ hx hy hz kf hkf
    · split at hkf
      · exact generateDriftGesture_inCube _ _ _ _ _ _ _ _ _ kf hkf
      · split at hkf
        · exact generateOrbitGesture_inCube _ _ _ _ _ _ _ _ _ kf hkf
        · split at hkf
          · exact generateReactiveGesture_inCube _ _ _ _ _ _ _ hx hy hz kf hkf
          · exact generateStaticGesture_inCube _ _ _ _ hx hy hz kf hkf

/-- Witness for C2: at the origin placement (discharging the in-cube
hypotheses at `(0, 0, 0)`) with a concrete static profile, the single
generated keyframe lies in the cube. -/
theorem c2_cube_invariant_witness :
    inCube { time := 0, x := 0, y := 0, z := 0, spread := some (3/10) } :=
  (c2_cube_invariant (fun _ => 0) (fun _ => 0) (fun _ => 0) (fun _ => 0)
    (fun _ => 0) defaultProfiles "11.1" ⟨"fx", "fx"⟩ {} [] none
    10 [1, 2] (fun _ => 2) (0, 0, 0)
    { node_id := "11.1", category := "other", role := "unknown"
    , base_x := 0, base_y := 0, base_z := 0
    , spread := 3/10, motion_intensity := 0, motion_type := "static"
    , mir_coupling := { energy := 0, flux := 0, brightness := 0 }
    , trace := { profile_key := ["other", "unknown"], z_snapshot := []
               , azimuth_deg := 0, elevation_deg := 0, distance := 0
               , stereo_side := none } }
    {} (by norm_num) (by norm_num) (by norm_num)).2
    { time := 0, x := 0, y := 0, z := 0, spread := some (3/10) }
    (by norm_num [generateGesture, generateStaticGesture])

-- ======================================================================
-- C3: bass example scenario
-- ======================================================================

/-- C3: at control point `u = 0.5, v = 0.3`, a single mono object classified
`(bass, bass)` with default (zero) acoustic features resolves to
`motion_type = "static"`, and for scene duration 10 the generated keyframe
sequence is exactly one keyframe at time 0 at the placement position — for
every hash function, oscillator interpretation and RNG oracle. -/
theorem c3_bass_static_scenario (hashFn : String → ℤ) (sinD cosD oscS oscC : ℚ → ℚ)
    (burstTimes : List ℚ) (draws : ℕ → ℚ) (placement : ℚ × ℚ × ℚ) :
    (resolveStyleProfile hashFn sinD cosD defaultProfiles "11.1" ⟨"bass", "bass"⟩ {}
      (mapUVtoZ (1/2) (3/10)) none).motion_type = "static" ∧
    generateGesture 10 hashFn oscS oscC burstTimes draws "11.1" placement
      (resolveStyleProfile hashFn sinD cosD defaultProfiles "11.1" ⟨"bass", "bass"⟩ {}
        (mapUVtoZ (1/2) (3/10)) none) {} =
      [{ time := 0, x := placement.1, y := placement.2.1, z := placement.2.2
       , spread := some (resolveStyleProfile hashFn sinD cosD defaultProfiles "11.1"
           ⟨"bass", "bass"⟩ {} (mapUVtoZ (1/2) (3/10)) none).spread }] := by
  have hprof : getInstrumentProfile defaultProfiles "bass" "bass" =
      (defaultProfiles.getD 2 (("", ""), safetyNetProfile)).2 := rfl
  have hmt : (resolveStyleProfile hashFn sinD cosD defaultProfiles "11.1"
      ⟨"bass", "bass"⟩ {} (mapUVtoZ (1/2) (3/10)) none).motion_type = "static" := by
    simp only [resolveStyleProfile]
    rw [hprof]
    norm_num [mapUVtoZ, npClip, defaultProfiles]
    intro h
    simp at h
  refine ⟨hmt, ?_⟩
  unfold generateGesture
  rw [if_pos (Or.inr hmt)]
  rfl

-- ======================================================================
-- LUSID scene writer (src/lusid_writer.py)
-- ======================================================================

/-- Code-point lexicographic order on char lists (Python string `<`). -/
def charListLt : List Char → List Char → Bool
  | [], [] => false
  | [], _ :: _ => true
  | _ :: _, [] => false
  | c :: cs, d :: ds => if c < d then true else if d < c then false else charListLt cs ds

/-- Python string comparison `a < b` (code-point lexicographic). -/
def strLtB (a b : String) : Bool := charListLt a.data b.data

/-- Stable insertion of `a` into a sorted list: after every element strictly
below it (so equal elements keep their original relative order, matching
Python's stable `sorted`). -/
def insertSortedBy {α : Type} (lt : α → α → Bool) (a : α) : List α → List α
  | [] => [a]
  | b :: l => if lt b a then b :: insertSortedBy lt a l else a :: b :: l

/-- Stable ascending sort (model of Python `sorted`). -/
def insertionSortBy {α : Type} (lt : α → α → Bool) : List α → List α
  | [] => []
  | a :: l => insertSortedBy lt a (insertionSortBy lt l)

/-- First-occurrence deduplication (Python dict-key / set iteration order). -/
def dedupKeepFirst {α : Type} [DecidableEq α] (seen : List α) : List α → List α
  | [] => []
  | a :: rest =>
    if a ∈ seen then dedupKeepFirst seen rest
    else a :: dedupKeepFirst (a :: seen) rest

/-- A node of a LUSID scene frame (the three node shapes of the writer,
as one record with optional fields; absent dict keys are `none`). -/
structure SceneNode where
  id : String
  type : String
  speakerLabel : Option String := none
  channelID : Option String := none
  cart : Option (List ℚ) := none
  gain : Option ℚ := none
deriving DecidableEq, Repr

/-- `LUSIDSceneWriter.DIRECT_SPEAKER_TEMPLATE` (`lusid_writer.py` lines
34-53): the nine canonical direct-speaker bed nodes. -/
def DIRECT_SPEAKER_TEMPLATE : List SceneNode :=
  [ { id := "1.1", type := "direct_speaker", speakerLabel := some "RC_L"
    , channelID := some "AC_00011001", cart := some [-1, 1, 0] }
  , { id := "2.1", type := "direct_speaker", speakerLabel := some "RC_R"
    , channelID := some "AC_00011002", cart := some [1, 1, 0] }
  , { id := "3.1", type := "direct_speaker", speakerLabel := some "RC_C"
    , channelID := some "AC_00011003", cart := some [0, 1, 0] }
  , { id := "5.1", type := "direct_speaker", speakerLabel := some "RC_Lss"
    , channelID := some "AC_00011005", cart := some [-1, 0, 0] }
  , { id := "6.1", type := "direct_speaker", speakerLabel := some "RC_Rss"
    , channelID := some "AC_00011006", cart := some [1, 0, 0] }
  , { id := "7.1", type := "direct_speaker", speakerLabel := some "RC_Lrs"
    , channelID := some "AC_00011007", cart := some [-1, -1, 0] }
  , { id := "8.1", type := "direct_speaker", speakerLabel := some "RC_Rrs"
    , channelID := some "AC_00011008", cart := some [1, -1, 0] }
  , { id := "9.1", type := "direct_speaker", speakerLabel := some "RC_Lts"
    , channelID := some "AC_00011009", cart := some [-1, 0, 1] }
  , { id := "10.1", type := "direct_speaker", speakerLabel := some "RC_Rts"
    , channelID := some "AC_0001100a", cart := some [1, 0, 1] } ]

/-- `LUSIDSceneWriter._audio_object_node` (`lusid_writer.py` lines 62-73):
6-decimal rounding of the cart components; `gain` emitted only when given
and not unity. -/
def audioObjectNode (node_id : String) (x y z : ℚ) (gain : Option ℚ) : SceneNode :=
  { id := node_id
  , type := "audio_object"
  , cart := some [pyRound 6 x, pyRound 6 y, pyRound 6 z]
  , gain :=
    match gain with
    | some g => if g ≠ 1 then some (pyRound 6 g) else none
    | none => none }

/-- `LUSIDSceneWriter._lfe_node` (`lusid_writer.py` lines 75-78). -/
def lfeNode : SceneNode := { id := "4.1", type := "LFE" }

/-- `LUSIDSceneWriter._build_bed_nodes` (`lusid_writer.py` lines 84-89). -/
def buildBedNodes : List SceneNode := DIRECT_SPEAKER_TEMPLATE ++ [lfeNode]

/-- A frame of a LUSID scene. -/
structure SceneFrame where
  time : ℚ
  nodes : List SceneNode
deriving DecidableEq, Repr

/-- Embedding of `LUSIDSceneWriter.assemble_frames` (`lusid_writer.py`
lines 91-129).  The input dict is an ordered association list
`node_id ↦ keyframes`; timestamps are rounded to 6 decimals, the `t = 0`
key is inserted if absent, frames are emitted in ascending time order, the
`t = 0` frame is prefixed with the bed/LFE nodes, and each frame's
audio-object nodes are sorted by id. -/
def assembleFrames (keyframesDict : List (String × List Keyframe)) : List SceneFrame :=
  let pairs : List (ℚ × SceneNode) := keyframesDict.flatMap (fun e =>
    e.2.map (fun kf => (pyRound 6 kf.time, audioObjectNode e.1 kf.x kf.y kf.z none)))
  let keys := dedupKeepFirst [] (pairs.map (·.1))
  let keys := if (0 : ℚ) ∈ keys then keys else keys ++ [0]
  let times := insertionSortBy (fun a b => decide (a < b)) keys
  times.map (fun t =>
    { time := t
    , nodes := (if t = 0 then buildBedNodes else []) ++
        insertionSortBy (fun a b => strLtB a.id b.id)
          ((pairs.filter (fun p => decide (p.1 = t))).map (·.2)) })

/-- The violations `LUSIDSceneWriter.validate_scene` can report, one
constructor per distinct error message of `lusid_writer.py` lines 198-250. -/
inductive SceneError where
  | missingKey (key : String)
  | wrongVersion (got : Option String)
  | noFrames
  | framesNotSorted
  | firstFrameNotZero
  | bedMissing (bedId : String)
  | lfeMissing
  | audioObjectMissingAtT0 (id : String)
  | duplicateId (id : String) (time : ℚ)
deriving DecidableEq, Repr

/-- The two fields of the scene dict that `validate_scene` reads
(`version` and `frames`); an absent dict key is `none`. -/
structure SceneDoc where
  version : Option String := none
  frames : Option (List SceneFrame) := none
deriving DecidableEq, Repr

/-- The nine fixed bed ids checked at `t = 0` (`lusid_writer.py` lines
224-225). -/
def BED_IDS : List String :=
  ["1.1", "2.1", "3.1", "5.1", "6.1", "7.1", "8.1", "9.1", "10.1"]

/-- The duplicate-id scan of one frame (`lusid_writer.py` lines 242-248):
one violation per repeated occurrence of an id within the frame. -/
def dupIdErrors (t : ℚ) (seen : List String) : List String → List SceneError
  | [] => []
  | nid :: rest =>
    (if nid ∈ seen then [SceneError.duplicateId nid t] else []) ++
      dupIdErrors t (nid :: seen) rest

/-- Embedding of `LUSIDSceneWriter.validate_scene` (`lusid_writer.py`
lines 185-250), reporting all violations in the source's order.  Note the
sortedness check is `times != sorted(times)` — non-strict. -/
def validateScene (scene : SceneDoc) : List SceneError :=
  let keyErrs :=
    (if scene.version.isNone then [SceneError.missingKey "version"] else []) ++
    (if scene.frames.isNone then [SceneError.missingKey "frames"] else [])
  let verErrs :=
    if scene.version ≠ some "0.5" then [SceneError.wrongVersion scene.version] else []
  let frames := scene.frames.getD []
  if frames.isEmpty then keyErrs ++ verErrs ++ [SceneError.noFrames]
  else
    let times := frames.map (·.time)
    let sortErrs :=
      if times ≠ insertionSortBy (fun a b => decide (a < b)) times then
        [SceneError.framesNotSorted]
      else []
    let t0Errs :=
      match frames with
      | [] => []
      | f0 :: _ =>
        if f0.time ≠ 0 then [SceneError.firstFrameNotZero]
        else
          let t0_ids := f0.nodes.map (·.id)
          let bedErrs := (BED_IDS.filter (fun b => decide (b ∉ t0_ids))).map
            SceneError.bedMissing
          let lfeErrs := if "4.1" ∈ t0_ids then [] else [SceneError.lfeMissing]
          let all_ao_ids := frames.flatMap (fun f =>
            (f.nodes.filter (fun n => n.type == "audio_object")).map (·.id))
          let missing := (dedupKeepFirst [] all_ao_ids).filter
            (fun i => decide (i ∉ t0_ids))
          let aoErrs := (insertionSortBy strLtB missing).map
            SceneError.audioObjectMissingAtT0
          bedErrs ++ lfeErrs ++ aoErrs
    let dupErrs := frames.flatMap (fun f => dupIdErrors f.time [] (f.nodes.map (·.id)))
    keyErrs ++ verErrs ++ sortErrs ++ t0Errs ++ dupErrs

-- ======================================================================
-- C4: assembly example scenario
-- ======================================================================

/-- The three-object keyframe dictionary of the C4 scenario (object A at
times 0, 2, 5; B at 0, 3; C at 0), in the sorted insertion order the
pipeline uses. -/
def c4Keyframes : List (String × List Keyframe) :=
  [ ("A", [ { time := 0, x := 1/10, y := 2/10, z := 0, spread := some (1/10) }
          , { time := 2, x := 3/10, y := 2/10, z := 0, spread := some (1/10) }
          , { time := 5, x := 1/10, y := 2/10, z := 0, spread := some (1/10) } ])
  , ("B", [ { time := 0, x := -(1/10), y := 2/10, z := 0, spread := some (1/10) }
          , { time := 3, x := -(3/10), y := 2/10, z := 0, spread := some (1/10) } ])
  , ("C", [ { time := 0, x := 0, y := 1/2, z := 0, spread := some (1/10) } ]) ]

/-- C4: assembling keyframes for objects A `{0, 2, 5}`, B `{0, 3}`, C `{0}`
produces frames at exactly the four times 0, 2, 3, 5 in ascending order;
the `t = 0` frame holds the nine direct-speaker nodes, the LFE node, and
one audio-object node for each of A, B, C; the `t = 2` and `t = 5` frames
hold only A; the `t = 3` frame holds only B. -/
theorem c4_assembly_scenario :
    (assembleFrames c4Keyframes).map (fun f => (f.time, f.nodes.map (·.id))) =
      [ ((0 : ℚ), ["1.1", "2.1", "3.1", "5.1", "6.1", "7.1", "8.1", "9.1",
                   "10.1", "4.1", "A", "B", "C"])
      , (2, ["A"]), (3, ["B"]), (5, ["A"]) ] ∧
    (assembleFrames c4Keyframes).map (fun f =>
        ( f.nodes.countP (fun n => n.type == "direct_speaker")
        , f.nodes.countP (fun n => n.type == "LFE")
        , f.nodes.countP (fun n => n.type == "audio_object"))) =
      [(9, 1, 3), (0, 0, 1), (0, 0, 1), (0, 0, 1)] := by
  constructor <;>
    (norm_num [assembleFrames, c4Keyframes, audioObjectNode, buildBedNodes,
      DIRECT_SPEAKER_TEMPLATE, lfeNode, dedupKeepFirst, insertionSortBy,
      insertSortedBy, strLtB, charListLt, pyRound, roundHalfEven, List.flatMap,
      List.filter, List.countP] <;> decide)

-- ======================================================================
-- C6: validation of frame ordering
-- ======================================================================

/-- A scene document with two frames at the identical time `5`:
well-formed in every other respect. -/
def c6DuplicateTimeScene : SceneDoc :=
  { version := some "0.5"
  , frames := some
      [ { time := 0
        , nodes := buildBedNodes ++
            [{ id := "A", type := "audio_object", cart := some [0, 0, 0] }] }
      , { time := 5
        , nodes := [{ id := "A", type := "audio_object", cart := some [1, 0, 0] }] }
      , { time := 5
        , nodes := [{ id := "A", type := "audio_object", cart := some [0, 1, 0] }] } ] }

/-- C6 counterexample: a scene whose frame times `[0, 5, 5]` are NOT
strictly ascending passes validation with no violations at all — the
code's ordering check `times != sorted(times)` is non-strict, so the claim
that such a document yields a frame-ordering violation is false. -/
theorem c6_counterexample_duplicate_times_pass :
    ((c6DuplicateTimeScene.frames.getD []).map (fun f => f.time) = [0, 5, 5]) ∧
    validateScene c6DuplicateTimeScene = [] := by
  constructor
  · decide
  · decide

/-- C6 (amended): the validator checks non-decreasing frame order: whenever
the time list differs from its stable ascending sort (in particular
whenever some adjacent pair is strictly descending), the violation list
contains the frame-ordering violation; frames with equal adjacent times
pass the ordering check (see the counterexample). -/
theorem c6_nondecreasing_order_checked (scene : SceneDoc)
    (h : (scene.frames.getD []).map (fun f => f.time) ≠
      insertionSortBy (fun a b => decide (a < b))
        ((scene.frames.getD []).map (fun f => f.time))) :
    SceneError.framesNotSorted ∈ validateScene scene := by
  unfold validateScene
  cases hf : scene.frames.getD [] with
  | nil =>
    rw [hf] at h
    simp [insertionSortBy] at h
  | cons f0 rest =>
    rw [hf] at h
    simp only [hf, List.isEmpty_cons, Bool.false_eq_true, if_false]
    rw [if_pos h]
    simp [List.mem_append]

/-- Witness for the amended C6 theorem: a scene whose frame times `[1, 0]`
are out of order is reported with the frame-ordering violation. -/
theorem c6_nondecreasing_order_checked_witness :
    SceneError.framesNotSorted ∈ validateScene
      { version := some "0.5"
      , frames := some [ { time := 1, nodes := [] }, { time := 0, nodes := [] } ] } :=
  c6_nondecreasing_order_checked _ (by decide)

-- ======================================================================
-- C8: front/back adjustment of the placement refinement
-- ======================================================================

/-- C8 counterexample: the code's front/back adjustment does NOT scale
negative (behind) positions by the bias value directly, and positive and
negative Y are transformed by the SAME rule — at `y = ±0.6`, bias `0.5`,
the adjustment maps `-0.6 ↦ -0.45 ≠ -0.6 × 0.5` and is exactly the
negation of its value at `+0.6`. -/
theorem c8_counterexample_same_rule_both_signs :
    applyFrontBackBias (-(6/10)) (1/2) ≠ (-(6/10)) * (1/2) ∧
    applyFrontBackBias (-(6/10)) (1/2) = -(applyFrontBackBias (6/10) (1/2)) ∧
    applyFrontBackBias (-(6/10)) (1/2) = -(45/100) := by
  norm_num [applyFrontBackBias]

/-- C8 (amended): the placement refinement's front/back adjustment
multiplies Y by `0.5 + 0.5 * front_back_bias`, the same linear rule for
positive and negative Y (the map is odd in Y, so there is no separate
forward-floor rule), and `compute_placement` applies it to the profile's
base Y before clamping each axis to the unit cube. -/
theorem c8_front_back_bias_uniform_linear (y b : ℚ)
    (profile : StyleProfile) (z : List ℚ) :
    applyFrontBackBias (-y) b = -(applyFrontBackBias y b) ∧
    applyFrontBackBias y b = y * (1/2 + 1/2 * b) ∧
    (computePlacement profile z).1 = npClip profile.base_x (-1) 1 ∧
    (computePlacement profile z).2.1 =
      npClip (applyFrontBackBias profile.base_y (z.getD 5 0)) (-1) 1 ∧
    (computePlacement profile z).2.2 =
      npClip (applyHeightConstraint profile.base_z (z.getD 1 0) false) (-1) 1 :=
  ⟨by unfold applyFrontBackBias; ring, rfl, rfl, rfl, rfl⟩

-- ======================================================================
-- C9: keyframe time invariant
-- ======================================================================

theorem head?_map_range (n : ℕ) (hn : 0 < n) (f : ℕ → Keyframe) :
    ((List.range n).map f).head? = some (f 0) := by
  cases n with
  | zero => omega
  | succ m =>
    rw [List.range_succ_eq_map]
    rfl

theorem tail_mem_map_range (n : ℕ) (f : ℕ → Keyframe) :
    ∀ kf ∈ ((List.range n).map f).tail, ∃ k, 0 < k ∧ k < n ∧ kf = f k := by
  cases n with
  | zero => intro kf h; simp at h
  | succ m =>
    intro kf h
    rw [List.range_succ_eq_map, List.map_cons, List.tail_cons, List.map_map] at h
    rcases List.mem_map.mp h with ⟨k, hk, rfl⟩
    exact ⟨k + 1, Nat.succ_pos k, by simpa using List.mem_range.mp hk, rfl⟩

theorem getLast?_map_range (n : ℕ) (hn : 0 < n) (f : ℕ → Keyframe) :
    ((List.range n).map f).getLast? = some (f (n - 1)) := by
  cases n with
  | zero => omega
  | succ m =>
    rw [List.range_succ, List.map_append]
    simp [List.getLast?_concat]

/-- Every sample index of the `while t <= duration` loop stays within the
duration: `k * interval ≤ d` for `k < sampleCount d interval`. -/
theorem sampleCount_mul_le (d interval : ℚ) (hd : 0 ≤ d) (hi : 0 < interval)
    (k : ℕ) (hk : k < sampleCount d interval) : (k : ℚ) * interval ≤ d := by
  unfold sampleCount at hk
  have hk2 : k ≤ (⌊d / interval⌋).toNat := Nat.lt_succ_iff.mp hk
  have hfl : (0 : ℤ) ≤ ⌊d / interval⌋ := Int.floor_nonneg.mpr (div_nonneg hd hi.le)
  have hk3 : (k : ℤ) ≤ ⌊d / interval⌋ := by
    have := Int.toNat_of_nonneg hfl
    omega
  have hk4 : (k : ℚ) ≤ d / interval := by
    calc (k : ℚ) ≤ (⌊d / interval⌋ : ℚ) := by exact_mod_cast hk3
    _ ≤ d / interval := Int.floor_le _
  calc (k : ℚ) * interval ≤ (d / interval) * interval :=
        mul_le_mul_of_nonneg_right hk4 hi.le
  _ = d := div_mul_cancel₀ d hi.ne'

/-- Transfer of the time facts through the emission filter: if the raw list
starts with a keyframe at time 0, all later raw keyframes have nonzero
times, and every possible last keyframe is below the bound, then the
filtered list has exactly one time-0 keyframe and its last time is below
the bound. -/
theorem filteredTimesInvariant (W : List Keyframe) (k0 : Keyframe) (bound : ℚ)
    (h0 : W.head? = some k0) (hz : k0.time = 0)
    (ht : ∀ kf ∈ W.tail, kf.time ≠ 0)
    (hl : ∀ lk, W.getLast? = some lk → lk.time ≤ bound) :
    (applyEmissionThreshold W).countP (fun kf => decide (kf.time = 0)) = 1 ∧
    (∀ lk, (applyEmissionThreshold W).getLast? = some lk → lk.time ≤ bound) := by
  constructor
  · cases hl2 : applyEmissionThreshold W with
    | nil =>
      exfalso
      have hh := applyEmissionThreshold_head? W
      rw [hl2, h0] at hh
      simp at hh
    | cons a t =>
      have hh := applyEmissionThreshold_head? W
      rw [hl2, h0] at hh
      simp only [List.head?_cons, Option.some.injEq] at hh
      subst hh
      rw [List.countP_cons]
      have htz : t.countP (fun kf => decide (kf.time = 0)) = 0 := by
        rw [List.countP_eq_zero]
        intro kf hkf
        have hmem : kf ∈ (applyEmissionThreshold W).tail := by
          rw [hl2]; simpa using hkf
        have := applyEmissionThreshold_tail_mem W kf hmem
        simp [ht kf this]
      rw [htz, hz]
      simp
  · intro lk hlk
    rw [applyEmissionThreshold_getLast?] at hlk
    exact hl lk hlk

/-- Time invariant for the sampled `while`-loop keyframe lists (orbit
generator, and the drift generator when no final keyframe is appended):
after the emission filter there is exactly one keyframe at time 0 and the
last keyframe's time exceeds the duration by at most half a millisecond. -/
theorem loopKeyframesInvariantNoEnd (d : ℚ) {interval : ℚ} {f : ℕ → Keyframe}
    {W : List Keyframe} (hd : 1 ≤ d) (hi : 1/2 ≤ interval)
    (hW : W = (List.range (sampleCount d interval)).map f)
    (hf : ∀ k, (f k).time = pyRound 3 ((k : ℚ) * interval)) :
    (applyEmissionThreshold W).countP (fun kf => decide (kf.time = 0)) = 1 ∧
    (∀ lk, (applyEmissionThreshold W).getLast? = some lk → lk.time ≤ d + 1/2000) := by
  have hipos : (0:ℚ) < interval := lt_of_lt_of_le (by norm_num) hi
  have htimepos : ∀ k : ℕ, 0 < k → (f k).time ≠ 0 := by
    intro k hk
    rw [hf k]
    have h1 : (1:ℚ) ≤ (k:ℚ) := by exact_mod_cast hk
    have h2 : interval ≤ (k:ℚ) * interval := by
      have := mul_le_mul_of_nonneg_right h1 hipos.le
      simpa using this
    have h3 := pyRound_ge 3 ((k:ℚ) * interval)
    norm_num at h3
    have : (0:ℚ) < pyRound 3 ((k:ℚ) * interval) := by linarith
    exact ne_of_gt this
  have hz : (f 0).time = 0 := by
    rw [hf 0]
    simp [pyRound_zero]
  have hloople : ∀ k : ℕ, k < sampleCount d interval → (f k).time ≤ d + 1/2000 := by
    intro k hk
    rw [hf k]
    have h1 := sampleCount_mul_le d interval (by linarith) hipos k hk
    have h3 := pyRound_le 3 ((k:ℚ) * interval)
    norm_num at h3
    linarith
  have hn : 0 < sampleCount d interval := Nat.succ_pos _
  apply filteredTimesInvariant W (f 0) (d + 1/2000) _ hz
  · intro kf hkf
    rw [hW] at hkf
    obtain ⟨k, hk0, _, rfl⟩ := tail_mem_map_range _ f kf hkf
    exact htimepos k hk0
  · intro lk hlk
    rw [hW, getLast?_map_range _ hn f] at hlk
    injection hlk with hlk
    rw [← hlk]
    exact hloople _ (by omega)
  · rw [hW]
    exact head?_map_range _ hn f

/-- Time invariant for the drift generator's sampled loop with the final
keyframe appended at the (rounded) scene duration. -/
theorem loopKeyframesInvariantEnd (d : ℚ) {interval : ℚ} {f : ℕ → Keyframe}
    {endKf : Keyframe} {W : List Keyframe} (hd : 1 ≤ d) (hi : 1/2 ≤ interval)
    (hW : W = (List.range (sampleCount d interval)).map f ++ [endKf])
    (hf : ∀ k, (f k).time = pyRound 3 ((k : ℚ) * interval))
    (hend : endKf.time = pyRound 3 d) :
    (applyEmissionThreshold W).countP (fun kf => decide (kf.time = 0)) = 1 ∧
    (∀ lk, (applyEmissionThreshold W).getLast? = some lk → lk.time ≤ d + 1/2000) := by
  have hipos : (0:ℚ) < interval := lt_of_lt_of_le (by norm_num) hi
  have htimepos : ∀ k : ℕ, 0 < k → (f k).time ≠ 0 := by
    intro k hk
    rw [hf k]
    have h1 : (1:ℚ) ≤ (k:ℚ) := by exact_mod_cast hk
    have h2 : interval ≤ (k:ℚ) * interval := by
      have := mul_le_mul_of_nonneg_right h1 hipos.le
      simpa using this
    have h3 := pyRound_ge 3 ((k:ℚ) * interval)
    norm_num at h3
    have : (0:ℚ) < pyRound 3 ((k:ℚ) * interval) := by linarith
    exact ne_of_gt this
  have hendpos : (0:ℚ) < pyRound 3 d := by
    have h3 := pyRound_ge 3 d
    norm_num at h3
    linarith
  have hendle : pyRound 3 d ≤ d + 1/2000 := by
    have h3 := pyRound_le 3 d
    norm_num at h3
    linarith
  have hz : (f 0).time = 0 := by
    rw [hf 0]
    simp [pyRound_zero]
  obtain ⟨m, hm⟩ : ∃ m, sampleCount d interval = m + 1 := ⟨_, rfl⟩
  have hsplit : W = f 0 :: ((List.range m).map (f ∘ Nat.succ) ++ [endKf]) := by
    rw [hW, hm, List.range_succ_eq_map, List.map_cons, List.map_map, List.cons_append]
  apply filteredTimesInvariant W (f 0) (d + 1/2000) _ hz
  · intro kf hkf
    rw [hsplit] at hkf
    simp only [List.tail_cons] at hkf
    rcases List.mem_append.mp hkf with h | h
    · rcases List.mem_map.mp h with ⟨k, _, rfl⟩
      exact htimepos (k + 1) (Nat.succ_pos k)
    · simp only [List.mem_singleton] at h
      subst h
      rw [hend]
      exact ne_of_gt hendpos
  · intro lk hlk
    rw [hsplit, ← List.cons_append, List.getLast?_concat] at hlk
    injection hlk with hlk
    rw [← hlk, hend]
    exact hendle
  · rw [hsplit]
    rfl

theorem generateDriftGesture_times (d : ℚ) (hd : 1 ≤ d) (oscS oscC : ℚ → ℚ)
    (hashFn : String → ℤ) (node_id : String) (start_pos : ℚ × ℚ × ℚ)
    (spread : ℚ) (profile : StyleProfile) (mir : MirFeatures) :
    (generateDriftGesture d oscS oscC hashFn node_id start_pos spread profile
      mir).countP (fun kf => decide (kf.time = 0)) = 1 ∧
    (∀ lk, (generateDriftGesture d oscS oscC hashFn node_id start_pos spread
      profile mir).getLast? = some lk → lk.time ≤ d + 1/2000) := by
  simp only [generateDriftGesture]
  split
  · next lastKf hlast =>
    split
    · refine loopKeyframesInvariantEnd d hd ?hi rfl ?hf ?hend
      case hi => exact le_trans (by norm_num) (le_max_left 2 _)
      case hf => intro k; rfl
      case hend => rfl
    · refine loopKeyframesInvariantNoEnd d hd ?hi rfl ?hf
      case hi => exact le_trans (by norm_num) (le_max_left 2 _)
      case hf => intro k; rfl
  · refine loopKeyframesInvariantNoEnd d hd ?hi rfl ?hf
    case hi => exact le_trans (by norm_num) (le_max_left 2 _)
    case hf => intro k; rfl

theorem generateOrbitGesture_times (d : ℚ) (hd : 1 ≤ d) (oscS oscC : ℚ → ℚ)
    (hashFn : String → ℤ) (node_id : String) (center_pos : ℚ × ℚ × ℚ)
    (spread : ℚ) (profile : StyleProfile) (mir : MirFeatures) :
    (generateOrbitGesture d oscS oscC hashFn node_id center_pos spread profile
      mir).countP (fun kf => decide (kf.time = 0)) = 1 ∧
    (∀ lk, (generateOrbitGesture d oscS oscC hashFn node_id center_pos spread
      profile mir).getLast? = some lk → lk.time ≤ d + 1/2000) := by
  simp only [generateOrbitGesture]
  refine loopKeyframesInvariantNoEnd d hd ?hi rfl ?hf
  case hi =>
    have h6 : (6:ℚ) ≤ max 6 (16 * (1 - profile.motion_intensity)) := le_max_left _ _
    linarith
  case hf => intro k; rfl

theorem generateReactiveGesture_times (d : ℚ) (hd : 1 ≤ d) (burstTimes : List ℚ)
    (hb : ∀ bt ∈ burstTimes, 1/2 ≤ bt) (draws : ℕ → ℚ)
    (base_pos : ℚ × ℚ × ℚ) (spread : ℚ) (profile : StyleProfile)
    (mir : MirFeatures) :
    (generateReactiveGesture d burstTimes draws base_pos spread profile
      mir).countP (fun kf => decide (kf.time = 0)) = 1 ∧
    (∀ lk, (generateReactiveGesture d burstTimes draws base_pos spread profile
      mir).getLast? = some lk → lk.time ≤ d + 1/2000) := by
  have hendpos : (0:ℚ) < pyRound 3 d := by
    have h3 := pyRound_ge 3 d
    norm_num at h3
    linarith
  have hendle : pyRound 3 d ≤ d + 1/2000 := by
    have h3 := pyRound_le 3 d
    norm_num at h3
    linarith
  simp only [generateReactiveGesture]
  refine filteredTimesInvariant _ _ _ rfl rfl ?_ ?_
  · intro kf hkf
    simp only [List.tail_cons] at hkf
    rcases List.mem_append.mp hkf with h | h
    · rcases List.mem_map.mp h with ⟨j, hj, rfl⟩
      have hjlen : j < burstTimes.length := List.mem_range.mp hj
      have hbt : 1/2 ≤ burstTimes.getD j 0 := by
        apply hb
        rw [List.getD_eq_getElem _ _ hjlen]
        exact List.getElem_mem hjlen
      have h3 := pyRound_ge 3 (burstTimes.getD j 0)
      have hc : (1 : ℚ) / (2 * (10:ℚ)^3) = 1/2000 := by norm_num
      rw [hc] at h3
      show pyRound 3 (burstTimes.getD j 0) ≠ 0
      have : (0:ℚ) < pyRound 3 (burstTimes.getD j 0) := by linarith
      exact ne_of_gt this
    · simp only [List.mem_singleton] at h
      subst h
      exact ne_of_gt hendpos
  · intro lk hlk
    rw [List.getLast?_concat] at hlk
    injection hlk with hlk
    rw [← hlk]
    exact hendle

theorem generateStaticGesture_times (d : ℚ) (hd : 1 ≤ d) (x y z spread : ℚ) :
    (generateStaticGesture x y z spread).countP
      (fun kf => decide (kf.time = 0)) = 1 ∧
    (∀ lk, (generateStaticGesture x y z spread).getLast? = some lk →
      lk.time ≤ d + 1/2000) := by
  constructor
  · simp [generateStaticGesture, List.countP_cons]
  · intro lk hlk
    simp only [generateStaticGesture, List.getLast?_singleton, Option.some.injEq] at hlk
    rw [← hlk]
    show (0:ℚ) ≤ d + 1/2000
    linarith

/-- C9 (amended): for every object, every scene duration `d ≥ 1`, every
oscillator/hash interpretation and every burst-time list inside the
`np.uniform(0.5, d - 0.5)` range, the generated keyframe sequence contains
exactly one keyframe with time 0.0, and the time of its last keyframe
exceeds the scene duration by at most half a millisecond (times are rounded
to millisecond precision, so the final keyframe at `round(d, 3)` may exceed
a non-millisecond-aligned duration by up to 0.0005 — see the
counterexample). -/
theorem c9_keyframe_time_invariant (d : ℚ) (hd : 1 ≤ d) (hashFn : String → ℤ)
    (oscS oscC : ℚ → ℚ) (burstTimes : List ℚ)
    (hb : ∀ bt ∈ burstTimes, 1/2 ≤ bt ∧ bt ≤ d - 1/2)
    (draws : ℕ → ℚ) (node_id : String) (placement : ℚ × ℚ × ℚ)
    (profile : StyleProfile) (mir : MirFeatures) :
    (generateGesture d hashFn oscS oscC burstTimes draws node_id placement
      profile mir).countP (fun kf => decide (kf.time = 0)) = 1 ∧
    (∀ lk, (generateGesture d hashFn oscS oscC burstTimes draws node_id
      placement profile mir).getLast? = some lk → lk.time ≤ d + 1/2000) := by
  unfold generateGesture
  split
  · exact generateStaticGesture_times d hd _ _ _ _
  · split
    · exact generateDriftGesture_times d hd _ _ _ _ _ _ _ _
    · split
      · exact generateOrbitGesture_times d hd _ _ _ _ _ _ _ _
      · split
        · exact generateReactiveGesture_times d hd _
            (fun bt hbt => (hb bt hbt).1) _ _ _ _ _
        · exact generateStaticGesture_times d hd _ _ _ _

/-- Witness for the amended C9 theorem: a concrete run with duration 10
and burst times 1 and 2 (discharging both hypotheses concretely); the
single generated keyframe count is 1 and the last keyframe's time obeys
the half-millisecond bound. -/
theorem c9_keyframe_time_invariant_witness :
    (generateGesture 10 (fun _ => 0) (fun _ => 0) (fun _ => 0) [1, 2]
      (fun _ => 2) "11.1" (0, 0, 0)
      { node_id := "11.1", category := "other", role := "unknown"
      , base_x := 0, base_y := 0, base_z := 0
      , spread := 3/10, motion_intensity := 0, motion_type := "static"
      , mir_coupling := { energy := 0, flux := 0, brightness := 0 }
      , trace := { profile_key := ["other", "unknown"], z_snapshot := []
                 , azimuth_deg := 0, elevation_deg := 0, distance := 0
                 , stereo_side := none } }
      {}).countP (fun kf => decide (kf.time = 0)) = 1 ∧
    ({ time := 0, x := 0, y := 0, z := 0, spread := some (3/10) } : Keyframe).time
      ≤ 10 + 1/2000 :=
  ⟨(c9_keyframe_time_invariant 10 (by norm_num) (fun _ => 0) (fun _ => 0)
      (fun _ => 0) [1, 2] (by norm_num) (fun _ => 2) "11.1" (0, 0, 0)
      { node_id := "11.1", category := "other", role := "unknown"
      , base_x := 0, base_y := 0, base_z := 0
      , spread := 3/10, motion_intensity := 0, motion_type := "static"
      , mir_coupling := { energy := 0, flux := 0, brightness := 0 }
      , trace := { profile_key := ["other", "unknown"], z_snapshot := []
                 , azimuth_deg := 0, elevation_deg := 0, distance := 0
                 , stereo_side := none } }
      {}).1,
   (c9_keyframe_time_invariant 10 (by norm_num) (fun _ => 0) (fun _ => 0)
      (fun _ => 0) [1, 2] (by norm_num) (fun _ => 2) "11.1" (0, 0, 0)
      { node_id := "11.1", category := "other", role := "unknown"
      , base_x := 0, base_y := 0, base_z := 0
      , spread := 3/10, motion_intensity := 0, motion_type := "static"
      , mir_coupling := { energy := 0, flux := 0, brightness := 0 }
      , trace := { profile_key := ["other", "unknown"], z_snapshot := []
                 , azimuth_deg := 0, elevation_deg := 0, distance := 0
                 , stereo_side := none } }
      {}).2 { time := 0, x := 0, y := 0, z := 0, spread := some (3/10) }
      (by norm_num [generateGesture, generateStaticGesture])⟩

/-- C9 counterexample: with a gentle-drift profile of intensity 0.3 (loop
interval 2.8 s) and scene duration 5.0006 s — not a whole number of
milliseconds — the final keyframe is appended at `round(5.0006, 3) = 5.001`,
which EXCEEDS the scene duration; so the claim that the last keyframe's
time never exceeds the duration is false as stated. -/
theorem c9_counterexample_rounding_overshoot :
    ((generateGesture (50006/10000) (fun _ => 0) (fun _ => 0) (fun _ => 0) []
        (fun _ => 0) "A" (0, 0, 0)
        { node_id := "A", category := "vocals", role := "lead"
        , base_x := 0, base_y := 0, base_z := 0
        , spread := 1/10, motion_intensity := 3/10, motion_type := "gentle_drift"
        , mir_coupling := { energy := 0, flux := 0, brightness := 0 }
        , trace := { profile_key := [], z_snapshot := [], azimuth_deg := 0
                   , elevation_deg := 0, distance := 0, stereo_side := none } }
        {}).map (fun kf => kf.time) = [0, 5001/1000]) ∧
    ¬((5001/1000 : ℚ) ≤ 50006/10000) := by
  constructor
  · norm_num [generateGesture, generateDriftGesture, sampleCount,
      gesturePhaseTurns, clampToCube, clampUnit, applyEmissionThreshold,
      emissionFold, keepKeyframe, POS_EPSILON, SPREAD_EPSILON, pyRound,
      roundHalfEven, List.range_succ]
    rw [if_neg (show ¬("gentle_drift" = "static") by decide)]
    rfl
  · norm_num
